import Mathlib

/-!
Verification development for the Discord/GroupMe bridge (`src/main.py`).

The single-file Python program is shallowly embedded below.  Mutable module
globals (`active_polls`, `poll_vote_tracking`, `poll_mapping`,
`groupme_poll_mapping`, `message_mapping`, `groupme_to_discord`) become the
fields of `BridgeState`; each handler becomes a pure function from a state and
an inbound event to a new state together with the list of outbound messages it
posts.  Python dicts, which overwrite on re-assignment and iterate in
insertion order, are embedded as key-unique association lists with
`dinsert` / `dlookup` / `dmem` below.  Python string slicing `s[:n]`, which
slices by code point, is embedded as `pySliceStr`.
-/

/-- Python `s[:n]`: the first `n` code points of `s`. -/
def pySliceStr (s : String) (n : Nat) : String := ⟨s.data.take n⟩

/-- Membership test of a key in an embedded Python dict (`k in d`). -/
def dmem {α β : Type} [DecidableEq α] (k : α) (m : List (α × β)) : Bool :=
  m.any (fun p => decide (p.1 = k))

/-- Lookup in an embedded Python dict (`d[k]` / `d.get(k)`). -/
def dlookup {α β : Type} [DecidableEq α] (k : α) (m : List (α × β)) : Option β :=
  (m.find? (fun p => decide (p.1 = k))).map (fun p => p.2)

/-- Assignment `d[k] = v` on an embedded Python dict: an existing key keeps
its position and is overwritten; a new key is appended at the end.  This
mirrors CPython dict semantics including iteration order. -/
def dinsert {α β : Type} [DecidableEq α] (k : α) (v : β) (m : List (α × β)) :
    List (α × β) :=
  if dmem k m then m.map (fun p => if p.1 = k then (k, v) else p)
  else m ++ [(k, v)]

/-- The keys of an embedded dict are pairwise distinct. -/
def keysNodup {α β : Type} (m : List (α × β)) : Prop :=
  (m.map (fun p => p.1)).Nodup

/-- ASCII approximation of Python's `\s` character class. -/
def isSpaceChar (c : Char) : Bool :=
  c = ' ' || c = '\t' || c = '\n' || c = '\r' ||
  c = Char.ofNat 11 || c = Char.ofNat 12

/-- ASCII approximation of Python's `\w` character class. -/
def isWordChar (c : Char) : Bool := c.isAlphanum || c = '_'

/-- `str.strip()` on a list of code points. -/
def trimSeq (cs : List Char) : List Char :=
  ((cs.dropWhile isSpaceChar).reverse.dropWhile isSpaceChar).reverse

/-- Whether `pat` is an initial segment of `cs`. -/
def startsWithSeq : List Char → List Char → Bool
  | [], _ => true
  | _ :: _, [] => false
  | a :: as, b :: bs => a = b && startsWithSeq as bs

/-- Split `cs` at every occurrence of any of the (nonempty) patterns,
dropping the matched pattern occurrences.  `fuel` bounds the recursion and is
instantiated with the length of the input. -/
def splitAnyAux (pats : List (List Char)) : Nat → List Char → List Char →
    List (List Char)
  | _, acc, [] => [acc.reverse]
  | 0, acc, cs => [acc.reverse ++ cs]
  | fuel + 1, acc, c :: cs =>
    match pats.find? (fun p => decide (p.length ≠ 0) && startsWithSeq p (c :: cs)) with
    | some p => acc.reverse :: splitAnyAux pats fuel [] ((c :: cs).drop p.length)
    | none => splitAnyAux pats fuel (c :: acc) cs

/-- Split a string at every occurrence of any of the marker strings. -/
def splitAny (pats : List String) (s : String) : List String :=
  (splitAnyAux (pats.map String.data) s.data.length [] s.data).map
    (fun cs => ⟨cs⟩)

/-- Python substring containment `pat in s` (for a nonempty `pat`). -/
def strContains (s pat : String) : Bool :=
  decide ((splitAny [pat] s).length ≠ 1)

/-- Python `list.index` (first index of an element known to be present). -/
def listIndexOf : String → List String → Nat
  | _, [] => 0
  | a, b :: bs => if a = b then 0 else listIndexOf a bs + 1

/-! ## Text-poll fallback parser (spec-modelled)

`parse_groupme_poll_text` is called at `src/main.py:329`
(`handle_groupme_text_poll`) and `src/main.py:867` (`handle_text_based_poll`)
but its definition is not part of the provided source file (the repository is
five iterations of the same program; the parser lives in an iteration that is
not under `src/`).  It is modelled here from the spec. -/

/-- Result of the text-poll parser: a question and an ordered option list. -/
structure ParsedPoll where
  question : String
  options : List String
deriving DecidableEq, Repr

/-- U+FE0F, the emoji variation selector. -/
def varSel : Char := Char.ofNat 0xFE0F

/-- U+20E3, the combining enclosing keycap. -/
def keycap : Char := Char.ofNat 0x20E3

/-- The numbered keycap emojis 1..9 followed by the keycap-ten emoji U+1F51F,
as used throughout the source (`option_emojis` literals). -/
def numberedEmojiMarkers : List String :=
  ((List.range 9).map (fun i => String.mk [Char.ofNat (0x31 + i), varSel, keycap]))
    ++ [String.mk [Char.ofNat 0x1F51F]]

/-- Lettered option markers `A)` .. `J)`. -/
def letteredMarkers : List String :=
  (List.range 10).map (fun i => String.mk [Char.ofNat (0x41 + i), ')'])

/-- Bullet option marker `•` (U+2022). -/
def bulletMarkers : List String := [String.mk [Char.ofNat 0x2022]]

/-- Dash option marker: a dash at the start of a line. -/
def dashMarkers : List String := [String.mk ['\n', '-']]

/-- The pieces of text following each marker occurrence, stripped, empty
pieces dropped. -/
def extractOptions (markers : List String) (text : String) : List String :=
  (((splitAny markers text).drop 1).map
      (fun s => String.mk (trimSeq s.data))).filter (fun s => decide (s ≠ ""))

/-- Modelled from the spec: the question of a text poll.  The spec's scenario
takes input `📊 Poll: Best pet? ...` to question `Best pet`: the question is
the text before the first `?`, with any `...:` lead-in (such as `📊 Poll:`)
removed, stripped. -/
def extractQuestion (text : String) : String :=
  let beforeQ := text.data.takeWhile (fun c => c ≠ '?')
  String.mk (trimSeq ((beforeQ.reverse.takeWhile (fun c => c ≠ ':')).reverse))

/-- Modelled from the spec: `parse_groupme_poll_text` (missing from
`src/main.py`, which only calls it).  Per spec §4.3, the option-extraction
patterns are tried in the fixed priority order numbered-emoji, lettered
`A)`, bullet `•`, dash `-`, and the first pattern yielding at least 2
options wins; the question is extracted as in the spec's §8 scenario. -/
def parse_groupme_poll_text (text : String) : Option ParsedPoll :=
  let cands := [extractOptions numberedEmojiMarkers text,
                extractOptions letteredMarkers text,
                extractOptions bulletMarkers text,
                extractOptions dashMarkers text]
  match cands.find? (fun l => decide (2 ≤ l.length)) with
  | some opts => some ⟨extractQuestion text, opts⟩
  | none => none

/-- The spec's text-poll parse scenario input
`📊 Poll: Best pet? 1️⃣ Dog 2️⃣ Cat 3️⃣ Fish` (keycap emojis are
digit, U+FE0F, U+20E3 as in the spec's bytes; the leading chart emoji is
U+1F4CA). -/
def specPollScenarioInput : String :=
  String.mk [Char.ofNat 0x1F4CA] ++ " Poll: Best pet? " ++
  String.mk ['1', varSel, keycap] ++ " Dog " ++
  String.mk ['2', varSel, keycap] ++ " Cat " ++
  String.mk ['3', varSel, keycap] ++ " Fish"

/-! ## Reply-context detection (`detect_reply_context`, src/main.py:615-630)

Each regex of `reply_patterns` is embedded as a dedicated matcher returning
the two capture groups on success.  All patterns are anchored (`re.match`)
and compiled with `re.DOTALL`, so `.` also matches newlines; the matchers
reproduce the greedy/lazy backtracking of each pattern.  `\w`/`\s` are
embedded as their ASCII cores. -/

/-- `^Reply to @(\w+):\s*(.+)` with `re.DOTALL`. -/
def matchReplyTo (s : String) : Option (String × String) :=
  match s.data with
  | 'R' :: 'e' :: 'p' :: 'l' :: 'y' :: ' ' :: 't' :: 'o' :: ' ' :: '@' :: rest =>
    let w := rest.takeWhile isWordChar
    if w = [] then none
    else
      match rest.drop w.length with
      | ':' :: r1 =>
        let k := (r1.takeWhile isSpaceChar).length
        let r2 := r1.drop k
        if r2 ≠ [] then some (⟨w⟩, ⟨r2⟩)
        else if 1 ≤ k then some (⟨w⟩, ⟨r1.drop (k - 1)⟩)
        else none
      | _ => none
  | _ => none

/-- `^@(\w+)\s+(.+)` with `re.DOTALL`. -/
def matchAtUser (s : String) : Option (String × String) :=
  match s.data with
  | '@' :: rest =>
    let w := rest.takeWhile isWordChar
    if w = [] then none
    else
      let r1 := rest.drop w.length
      let k := (r1.takeWhile isSpaceChar).length
      if k = 0 then none
      else
        let r2 := r1.drop k
        if r2 ≠ [] then some (⟨w⟩, ⟨r2⟩)
        else if 2 ≤ k then some (⟨w⟩, ⟨r1.drop (k - 1)⟩)
        else none
  | _ => none

/-- `^>\s*(.+?)\n(.+)` with `re.DOTALL`: the greedy `\s*` prefers the longest
whitespace run, then the lazy group stops at the earliest newline that still
leaves a nonempty second group. -/
def matchBlockquote (s : String) : Option (String × String) :=
  match s.data with
  | '>' :: rest =>
    let w := (rest.takeWhile isSpaceChar).length
    ((List.range (w + 1)).reverse).findSome? (fun j =>
      (List.range rest.length).findSome? (fun m =>
        if j + 1 ≤ m ∧ rest.get? m = some '\n' ∧ m + 1 < rest.length then
          some (⟨(rest.drop j).take (m - j)⟩, ⟨rest.drop (m + 1)⟩)
        else none))
  | _ => none

/-- `^"(.+?)"\s*(.+)` with `re.DOTALL`: the lazy group stops at the earliest
closing quote after which `\s*(.+)` can still succeed. -/
def matchQuoted (s : String) : Option (String × String) :=
  match s.data with
  | '"' :: rest =>
    (List.range rest.length).findSome? (fun m =>
      if 1 ≤ m ∧ rest.get? m = some '"' then
        let t := rest.drop (m + 1)
        let k := (t.takeWhile isSpaceChar).length
        if t.drop k ≠ [] then some (⟨rest.take m⟩, ⟨t.drop k⟩)
        else if 1 ≤ k then some (⟨rest.take m⟩, ⟨t.drop (k - 1)⟩)
        else none
      else none)
  | _ => none

/-- `detect_reply_context` (src/main.py:615-630): the patterns are tried in
their fixed order, the first match wins and its two capture groups are
returned; with no match the original text is returned with no author.
(Every pattern has exactly two groups, so the source's
`len(match.groups()) == 2` check always passes on a match.) -/
def detect_reply_context (s : String) : Option String × String :=
  match matchReplyTo s with
  | some (a, b) => (some a, b)
  | none =>
    match matchAtUser s with
    | some (a, b) => (some a, b)
    | none =>
      match matchBlockquote s with
      | some (a, b) => (some a, b)
      | none =>
        match matchQuoted s with
        | some (a, b) => (some a, b)
        | none => (none, s)

/-! ## Bridge state and poll data model

One entry of `active_polls` (the dicts built at src/main.py:247-255 and
src/main.py:423-432).  `optionEmojis` embeds the optional `'option_emojis'`
key read at src/main.py:545; no constructor of the source ever sets it.
`discordPollAnswers` embeds the `.answers` texts of the stored
`'discord_poll'` object. -/
structure PollEntry where
  source : String
  discordMessageId : Nat
  groupmePollId : String
  author : String
  createdAt : Nat
  options : List String
  optionEmojis : Option (List String)
  discordPollAnswers : List String
deriving DecidableEq, Repr

/-- One entry of `poll_vote_tracking` (src/main.py:555-558). -/
structure VoteRecord where
  option : String
  timestamp : Nat
deriving DecidableEq, Repr

/-- The mutable module globals of src/main.py:44-52 that the relay logic
reads and writes. -/
structure BridgeState where
  active_polls : List (String × PollEntry)
  poll_vote_tracking : List (String × VoteRecord)
  poll_mapping : List (Nat × String)
  groupme_poll_mapping : List (String × String)
  message_mapping : List (Nat × String)
  groupme_to_discord : List (String × Nat)
deriving DecidableEq, Repr

/-- The empty initial state (all dicts start empty). -/
def initialState : BridgeState := ⟨[], [], [], [], [], []⟩

/-- All `active_polls` entries lack the `'option_emojis'` key. -/
def no_option_emojis (st : BridgeState) : Prop :=
  ∀ p ∈ st.active_polls, p.2.optionEmojis = none

/-- One option of the GroupMe poll-creation payload (src/main.py:387). -/
structure GroupMePollOption where
  title : String
deriving DecidableEq, Repr

/-- The GroupMe poll-creation payload (src/main.py:393-399). -/
structure GroupMePollPayload where
  subject : String
  options : List GroupMePollOption
  expiration : Nat
  type : String
  visibility : String
deriving DecidableEq, Repr

/-- `f"{i+1}⃣"`: the numeric emoji used for Discord poll options
(src/main.py:231). -/
def numEmoji (n : Nat) : String := toString n ++ String.mk [keycap]

/-- One `discord.PollMedia(text=..., emoji=...)` (src/main.py:232). -/
structure DiscordPollMedia where
  text : String
  emoji : String
deriving DecidableEq, Repr

/-- The loop of src/main.py:229-232: `for i, option in enumerate(...)`,
appending `PollMedia(text=option[:55], emoji=f"{i+1}⃣")`; `j` is the
running enumeration index. -/
def buildOptsFrom (j : Nat) : List String → List DiscordPollMedia
  | [] => []
  | o :: rest => ⟨pySliceStr o 55, numEmoji (j + 1)⟩ :: buildOptsFrom (j + 1) rest

/-- The Discord poll options built from `options[:10]` (src/main.py:228-232,
Discord limit of 10 options). -/
def buildDiscordPollOptions (options : List String) : List DiscordPollMedia :=
  buildOptsFrom 0 (options.take 10)

/-- The GroupMe poll payload built at src/main.py:384-399: options capped at
10, each title `option[:160]`, subject `question[:160]`, 24-hour expiration,
single choice, public. -/
def buildGroupMePollPayload (question : String) (options : List String)
    (now : Nat) : GroupMePollPayload :=
  { subject := pySliceStr question 160
    options := (options.take 10).map (fun o => ⟨pySliceStr o 160⟩)
    expiration := now + 24 * 60 * 60
    type := "single"
    visibility := "public" }

/-! ## Poll creation -/

/-- `create_discord_poll_from_groupme_native` (src/main.py:220-262): builds
the Discord poll options, sends the poll (the fresh Discord message id is
`discordMsgId`), then registers the poll under key `"groupme_" + poll_id` in
`active_polls` (note: no `'option_emojis'` key) and maps the GroupMe poll id
in `groupme_poll_mapping`.  Returns the new state and the created poll's
options. -/
def create_discord_poll_from_groupme_native (st : BridgeState)
    (question : String) (options : List String) (gmPollId : String)
    (authorName : String) (now : Nat) (discordMsgId : Nat) :
    BridgeState × List DiscordPollMedia :=
  let pollOptions := buildDiscordPollOptions options
  let pid := "groupme_" ++ gmPollId
  let entry : PollEntry :=
    { source := "groupme", discordMessageId := discordMsgId,
      groupmePollId := gmPollId, author := authorName, createdAt := now,
      options := options, optionEmojis := none,
      discordPollAnswers := pollOptions.map (fun p => p.text) }
  ({ st with
      active_polls := dinsert pid entry st.active_polls
      groupme_poll_mapping := dinsert gmPollId pid st.groupme_poll_mapping },
   pollOptions)

/-- The GroupMe poll-creation API outcome: `none` embeds a raised network
exception; otherwise the HTTP status and (for a well-formed 201 body) the
created poll's id. -/
structure GroupMeApiResp where
  status : Nat
  pollId : String
deriving DecidableEq, Repr

/-- `create_groupme_poll_from_discord` (src/main.py:343-448): fails without
a token; fails if fewer than 2 options were extracted from the Discord poll;
posts `buildGroupMePollPayload`; on a network exception (`api = none`) or a
non-201 status returns `False` without touching any state; only in the 201
branch registers the poll in `active_polls` (again without
`'option_emojis'`), `poll_mapping` and `groupme_poll_mapping`. -/
def create_groupme_poll_from_discord (st : BridgeState) (hasToken : Bool)
    (question : String) (options : List String) (authorName : String)
    (discordMsgId : Nat) (now : Nat) (api : Option GroupMeApiResp) :
    Bool × BridgeState :=
  if hasToken = false then (false, st)
  else if options.length < 2 then (false, st)
  else
    match api with
    | none => (false, st)
    | some r =>
      if r.status = 201 then
        let pid := "discord_" ++ toString discordMsgId
        let entry : PollEntry :=
          { source := "discord", discordMessageId := discordMsgId,
            groupmePollId := r.pollId, author := authorName, createdAt := now,
            options := options, optionEmojis := none,
            discordPollAnswers := options }
        (true,
         { st with
            active_polls := dinsert pid entry st.active_polls
            poll_mapping := dinsert discordMsgId pid st.poll_mapping
            groupme_poll_mapping := dinsert r.pollId pid st.groupme_poll_mapping })
      else (false, st)

/-- `handle_groupme_poll_created` (src/main.py:181-218): returns untouched
when the event has no poll id (Python falsiness: missing or empty), when the
full poll data cannot be fetched, or when the fetched poll has fewer than 2
options; otherwise creates the Discord counterpart poll. -/
def handle_groupme_poll_created (st : BridgeState) (pollId : Option String)
    (pollSubject : String) (authorName : String)
    (fetchedOptions : Option (List String)) (channelPresent : Bool)
    (now : Nat) (discordMsgId : Nat) : BridgeState :=
  match pollId with
  | none => st
  | some pid =>
    if pid = "" then st
    else
      match fetchedOptions with
      | none => st
      | some options =>
        if options.length < 2 then st
        else if channelPresent then
          (create_discord_poll_from_groupme_native st pollSubject options pid
            authorName now discordMsgId).1
        else st

/-- `handle_groupme_text_poll` (src/main.py:322-341): parses the message
text; with a parse yielding at least 2 options and a resolvable channel,
creates a Discord poll under the generated id `text_{int(time.time())}`. -/
def handle_groupme_text_poll (st : BridgeState) (messageText : String)
    (senderName : String) (channelPresent : Bool) (now : Nat)
    (discordMsgId : Nat) : BridgeState :=
  match parse_groupme_poll_text messageText with
  | none => st
  | some pd =>
    if 2 ≤ pd.options.length ∧ channelPresent then
      (create_discord_poll_from_groupme_native st pd.question pd.options
        ("text_" ++ toString now) senderName now discordMsgId).1
    else st

/-! ## Vote relay -/

/-- U+1F5F3 + variation selector: the ballot-box emoji of the vote texts. -/
def ballotEmoji : String := String.mk [Char.ofNat 0x1F5F3, varSel]

/-- `handle_groupme_poll_vote` (src/main.py:264-285): if the voted poll id is
tracked in `groupme_poll_mapping` and the Discord channel resolves, posts one
vote notification — on every delivery; the function consults no
vote-tracking state and mutates nothing.  Returns the posted messages. -/
def handle_groupme_poll_vote (st : BridgeState) (pollId : String)
    (userName : String) (optionTitle : String) (channelPresent : Bool) :
    List String :=
  if dmem pollId st.groupme_poll_mapping then
    if channelPresent then
      [ballotEmoji ++ " **" ++ userName ++ "** voted for: **" ++ optionTitle
        ++ "**"]
    else []
  else []

/-- The loop of `handle_poll_vote_to_groupme` (src/main.py:540-572) over the
`active_polls` items, threading the `poll_vote_tracking` dict.  For a
matching Discord-source poll whose `'option_emojis'` list contains the
emoji: an out-of-range option index raises (the enclosing `try` returns
`False`, keeping side effects already performed); a vote key already present
returns `True` with no post; otherwise the key is recorded, the notification
posted (it is posted even when the response is not 202, in which case the
loop continues instead of returning).  Posts are returned tagged with their
vote key. -/
def hpvLoop (targetId : Nat) (emoji userName : String) (now : Nat)
    (postOk : Bool) :
    List (String × PollEntry) → List (String × VoteRecord) →
    Bool × List (String × VoteRecord) × List (String × String)
  | [], tr => (false, tr, [])
  | (pid, pd) :: rest, tr =>
    if pd.source = "discord" ∧ pd.discordMessageId = targetId then
      let oes := (pd.optionEmojis).getD []
      if emoji ∈ oes then
        match pd.discordPollAnswers.get? (listIndexOf emoji oes) with
        | none => (false, tr, [])
        | some optionText =>
          let voteKey := pid ++ "_" ++ userName
          if dmem voteKey tr then (true, tr, [])
          else
            let tr2 := dinsert voteKey ⟨optionText, now⟩ tr
            let sent := (voteKey,
              ballotEmoji ++ " " ++ userName ++ " voted for: " ++ optionText)
            if postOk then (true, tr2, [sent])
            else
              let r := hpvLoop targetId emoji userName now postOk rest tr2
              (r.1, r.2.1, sent :: r.2.2)
      else hpvLoop targetId emoji userName now postOk rest tr
    else hpvLoop targetId emoji userName now postOk rest tr

/-- `handle_poll_vote_to_groupme` (src/main.py:536-576): runs `hpvLoop` on
the current `active_polls` and `poll_vote_tracking`; returns the handled
flag, the new state, and the posted vote notifications tagged with their
vote keys. -/
def handle_poll_vote_to_groupme (st : BridgeState) (targetId : Nat)
    (emoji userName : String) (now : Nat) (postOk : Bool) :
    Bool × BridgeState × List (String × String) :=
  let r := hpvLoop targetId emoji userName now postOk st.active_polls
    st.poll_vote_tracking
  (r.1, { st with poll_vote_tracking := r.2.1 }, r.2.2)

/-- Redelivering the identical reaction event `n` times
(`handle_poll_vote_to_groupme` applied repeatedly, accumulating the posted
notifications). -/
def hpvIterate (targetId : Nat) (emoji userName : String) (now : Nat)
    (postOk : Bool) : BridgeState → Nat → BridgeState × List (String × String)
  | st, 0 => (st, [])
  | st, n + 1 =>
    let r := handle_poll_vote_to_groupme st targetId emoji userName now postOk
    let rest := hpvIterate targetId emoji userName now postOk r.2.1 n
    (rest.1, r.2.2 ++ rest.2)

/-- The reaction context text of src/main.py:508-516: the original message's
text (sliced to 50) and author when available. -/
def reactionContextText (origMsg : Option (String × String))
    (emoji userName : String) : String :=
  let q := String.mk [Char.ofNat 39]
  let context :=
    match origMsg with
    | some (text, author) =>
      if text ≠ "" then q ++ pySliceStr text 50 ++ "..." ++ q ++ " by " ++ author
      else "message by " ++ author
    | none => "a message"
  userName ++ " reacted " ++ emoji ++ " to " ++ context

/-- `send_reaction_to_groupme` (src/main.py:496-534): without credentials
returns `False`; otherwise first tries the poll-vote path and, when that
reports unhandled, falls through to posting a generic
"user reacted ... to ..." message.  Returns the success flag, the state, and
every message posted. -/
def send_reaction_to_groupme (st : BridgeState) (hasCreds : Bool)
    (targetId : Nat) (emoji userName : String) (now : Nat) (postOk : Bool)
    (origMsg : Option (String × String)) : Bool × BridgeState × List String :=
  if hasCreds = false then (false, st, [])
  else
    let r := handle_poll_vote_to_groupme st targetId emoji userName now postOk
    if r.1 then (true, r.2.1, r.2.2.map (fun p => p.2))
    else
      (postOk, r.2.1,
       r.2.2.map (fun p => p.2) ++ [reactionContextText origMsg emoji userName])

/-! ## Webhook dispatch, message forwarding, cleanup -/

/-- The per-path routing decisions of the webhook handler. -/
inductive WebhookAction where
  | pollCreated
  | pollVote
  | pollEnded
  | forwardMessage
  | textPoll
deriving DecidableEq, Repr

/-- U+1F4CA, the bar-chart emoji checked by the text-poll trigger. -/
def chartEmoji : String := String.mk [Char.ofNat 0x1F4CA]

/-- Python `str.lower()` by code point (ASCII core). -/
def strLower (s : String) : String := ⟨s.data.map Char.toLower⟩

/-- `handle_groupme_webhook_event` (src/main.py:152-179): dispatches on
`event.type`; for a regular message, forwards it only when the sender is not
a bot, but runs the text-poll detection unconditionally whenever the text
contains `poll:` (case-insensitively) or the chart emoji. -/
def handle_groupme_webhook_event (senderType name text eventType : String) :
    List WebhookAction :=
  if eventType = "poll.created" then [WebhookAction.pollCreated]
  else if eventType = "poll.vote" then [WebhookAction.pollVote]
  else if eventType = "poll.ended" then [WebhookAction.pollEnded]
  else
    (if senderType ≠ "bot" ∧ name ≠ "Bot" then [WebhookAction.forwardMessage]
     else []) ++
    (if text ≠ "" ∧ (strContains (strLower text) "poll:" ∨ strContains text chartEmoji)
     then [WebhookAction.textPoll] else [])

/-- `forward_groupme_to_discord` (src/main.py:450-471): a nonempty message
not authored by `Bot` is posted to the Discord channel; when the GroupMe
payload carries a (truthy) message id, the two message-link dicts are
updated with the freshly sent Discord message id.  Returns the new state and
the posted messages. -/
def forward_groupme_to_discord (st : BridgeState) (senderName text : String)
    (gmMsgId : Option String) (channelPresent : Bool) (newDiscordMsgId : Nat) :
    BridgeState × List String :=
  if text ≠ "" ∧ senderName ≠ "Bot" then
    if channelPresent then
      let formatted := "**" ++ senderName ++ "**: " ++ text
      let st' :=
        match gmMsgId with
        | some gid =>
          if gid ≠ "" then
            { st with
                groupme_to_discord := dinsert gid newDiscordMsgId st.groupme_to_discord
                message_mapping := dinsert newDiscordMsgId gid st.message_mapping }
          else st
        | none => st
      (st', [formatted])
    else (st, [])
  else (st, [])

/-- One pass of the hourly `cleanup_old_polls` loop (src/main.py:1806-1834):
polls strictly older than 86400 seconds are deleted from `active_polls`, and
— independently — vote-tracking entries whose own timestamp is strictly
older than 86400 seconds are deleted. -/
def cleanup_old_polls_step (st : BridgeState) (now : Nat) : BridgeState :=
  { st with
      active_polls :=
        st.active_polls.filter (fun p => decide (¬ 86400 < now - p.2.createdAt))
      poll_vote_tracking :=
        st.poll_vote_tracking.filter (fun p => decide (¬ 86400 < now - p.2.timestamp)) }

/-! ## Dictionary lemmas -/

lemma find?_eq_none_of_not_dmem {α β : Type} [DecidableEq α] (k : α)
    (m : List (α × β)) (h : dmem k m = false) :
    m.find? (fun p => decide (p.1 = k)) = none := by
  induction m with
  | nil => rfl
  | cons a t ih =>
    have hak : ¬ a.1 = k := by
      intro hc
      simp [dmem, List.any_cons, hc] at h
    have ht : dmem k t = false := by
      simpa [dmem, List.any_cons, hak] using h
    rw [List.find?_cons_of_neg _ (by simp [hak]), ih ht]

lemma dmem_iff_dlookup {α β : Type} [DecidableEq α] (k : α)
    (m : List (α × β)) : dmem k m = true ↔ (dlookup k m).isSome := by
  induction m with
  | nil => simp [dmem, dlookup]
  | cons a t ih =>
    by_cases hak : a.1 = k
    · simp [dmem, dlookup, List.find?_cons_of_pos, hak]
    · rw [dmem, List.any_cons]
      rw [dlookup, List.find?_cons_of_neg _ (by simp [hak])]
      simp only [hak, Bool.false_or, decide_eq_true_eq, false_or]
      exact ih

lemma dlookup_map_replace_self {α β : Type} [DecidableEq α] (k : α) (v : β)
    (m : List (α × β)) (h : dmem k m = true) :
    dlookup k (m.map (fun p => if p.1 = k then (k, v) else p)) = some v := by
  induction m with
  | nil => simp [dmem] at h
  | cons a t ih =>
    by_cases hak : a.1 = k
    · simp [dlookup, List.find?_cons_of_pos, hak]
    · have ht : dmem k t = true := by
        simpa [dmem, List.any_cons, hak] using h
      rw [List.map_cons, if_neg hak]
      rw [dlookup, List.find?_cons_of_neg _ (by simp [hak])]
      exact ih ht

lemma dlookup_map_replace_ne {α β : Type} [DecidableEq α] (k k' : α) (v : β)
    (m : List (α × β)) (hne : k' ≠ k) :
    dlookup k' (m.map (fun p => if p.1 = k then (k, v) else p)) = dlookup k' m := by
  induction m with
  | nil => rfl
  | cons a t ih =>
    by_cases hak : a.1 = k
    · rw [List.map_cons, if_pos hak]
      rw [dlookup, List.find?_cons_of_neg _ (by simp [Ne.symm hne])]
      rw [dlookup, List.find?_cons_of_neg _ (by simp [hak, Ne.symm hne])]
      exact ih
    · rw [List.map_cons, if_neg hak]
      by_cases hak' : a.1 = k'
      · simp [dlookup, List.find?_cons_of_pos, hak']
      · rw [dlookup, List.find?_cons_of_neg _ (by simp [hak'])]
        rw [dlookup, List.find?_cons_of_neg _ (by simp [hak'])]
        exact ih

lemma dlookup_dinsert_self {α β : Type} [DecidableEq α] (k : α) (v : β)
    (m : List (α × β)) : dlookup k (dinsert k v m) = some v := by
  rw [dinsert]
  by_cases hd : dmem k m
  · rw [if_pos hd]
    exact dlookup_map_replace_self k v m hd
  · rw [if_neg hd]
    rw [dlookup, List.find?_append, find?_eq_none_of_not_dmem k m (by simpa using hd)]
    simp [List.find?]

lemma dlookup_dinsert_ne {α β : Type} [DecidableEq α] (k k' : α) (v : β)
    (m : List (α × β)) (hne : k' ≠ k) :
    dlookup k' (dinsert k v m) = dlookup k' m := by
  rw [dinsert]
  by_cases hd : dmem k m
  · rw [if_pos hd]
    exact dlookup_map_replace_ne k k' v m hne
  · rw [if_neg hd]
    rw [dlookup, List.find?_append]
    have h1 : List.find? (fun p => decide (p.1 = k')) [(k, v)] = none := by
      simp [List.find?, Ne.symm hne]
    rw [h1]
    cases h : m.find? (fun p => decide (p.1 = k')) <;> simp [dlookup, h]

lemma dmem_dinsert_self {α β : Type} [DecidableEq α] (k : α) (v : β)
    (m : List (α × β)) : dmem k (dinsert k v m) = true := by
  rw [dmem_iff_dlookup, dlookup_dinsert_self]
  rfl

lemma dmem_dinsert_mono {α β : Type} [DecidableEq α] (k k' : α) (v : β)
    (m : List (α × β)) (h : dmem k' m = true) :
    dmem k' (dinsert k v m) = true := by
  by_cases hk : k' = k
  · subst hk; exact dmem_dinsert_self k' v m
  · rw [dmem_iff_dlookup, dlookup_dinsert_ne k k' v m hk]
    rw [dmem_iff_dlookup] at h
    exact h

lemma keysNodup_dinsert {α β : Type} [DecidableEq α] (k : α) (v : β)
    (m : List (α × β)) (h : keysNodup m) : keysNodup (dinsert k v m) := by
  rw [dinsert]
  by_cases hd : dmem k m
  · rw [if_pos hd]
    have hkeys : (m.map (fun p => if p.1 = k then (k, v) else p)).map
        (fun p => p.1) = m.map (fun p => p.1) := by
      rw [List.map_map]
      apply List.map_congr_left
      intro a _
      by_cases hak : a.1 = k <;> simp [hak]
    rw [keysNodup, hkeys]
    exact h
  · rw [if_neg hd]
    rw [keysNodup, List.map_append]
    simp only [List.map_cons, List.map_nil]
    rw [List.nodup_append]
    refine ⟨h, List.nodup_singleton k, ?_⟩
    intro a ha
    simp only [List.mem_singleton]
    intro hak
    subst hak
    simp only [List.mem_map] at ha
    obtain ⟨p, hp, hpk⟩ := ha
    have hmem : dmem a m = true := by
      rw [dmem, List.any_eq_true]
      exact ⟨p, hp, by simp [hpk]⟩
    simp [hmem] at hd

lemma mem_dinsert_pres {α β : Type} [DecidableEq α] (P : β → Prop) (k : α)
    (v : β) (m : List (α × β)) (hm : ∀ p ∈ m, P p.2) (hv : P v) :
    ∀ p ∈ dinsert k v m, P p.2 := by
  intro p hp
  rw [dinsert] at hp
  by_cases hd : dmem k m
  · rw [if_pos hd] at hp
    simp only [List.mem_map] at hp
    obtain ⟨q, hq, hqp⟩ := hp
    by_cases hqk : q.1 = k
    · rw [if_pos hqk] at hqp; subst hqp; exact hv
    · rw [if_neg hqk] at hqp; subst hqp; exact hm q hq
  · rw [if_neg hd] at hp
    rcases List.mem_append.mp hp with h | h
    · exact hm p h
    · simp only [List.mem_singleton] at h; subst h; exact hv

/-! ## Counting vote notifications per vote key -/

/-- The number of posted notifications tagged with vote key `k`. -/
def countKey (k : String) (l : List (String × String)) : Nat :=
  (l.filter (fun p => decide (p.1 = k))).length

lemma countKey_nil (k : String) : countKey k [] = 0 := rfl

lemma countKey_cons (k : String) (p : String × String)
    (l : List (String × String)) :
    countKey k (p :: l) = (if p.1 = k then 1 else 0) + countKey k l := by
  by_cases h : p.1 = k <;> simp [countKey, List.filter_cons, h, Nat.add_comm]

lemma countKey_append (k : String) (a b : List (String × String)) :
    countKey k (a ++ b) = countKey k a + countKey k b := by
  simp [countKey, List.filter_append]

/-- Behaviour of the `handle_poll_vote_to_groupme` loop with respect to a
fixed vote key `k`: at most one notification tagged `k` is posted; none is
posted when `k` is already tracked; a posted one leaves `k` tracked; and
tracked keys stay tracked. -/
lemma hpvLoop_key_spec (targetId : Nat) (emoji userName : String) (now : Nat)
    (postOk : Bool) (k : String) :
    ∀ (polls : List (String × PollEntry)) (tr : List (String × VoteRecord)),
      countKey k (hpvLoop targetId emoji userName now postOk polls tr).2.2 ≤ 1 ∧
      (dmem k tr = true →
        countKey k (hpvLoop targetId emoji userName now postOk polls tr).2.2 = 0) ∧
      (1 ≤ countKey k (hpvLoop targetId emoji userName now postOk polls tr).2.2 →
        dmem k (hpvLoop targetId emoji userName now postOk polls tr).2.1 = true) ∧
      (dmem k tr = true →
        dmem k (hpvLoop targetId emoji userName now postOk polls tr).2.1 = true) := by
  intro polls
  induction polls with
  | nil =>
    intro tr
    simp [hpvLoop, countKey_nil]
  | cons hd rest ih =>
    intro tr
    obtain ⟨pid, pd⟩ := hd
    rw [hpvLoop]
    by_cases hmatch : pd.source = "discord" ∧ pd.discordMessageId = targetId
    · rw [if_pos hmatch]
      by_cases hin : emoji ∈ pd.optionEmojis.getD []
      · rw [if_pos hin]
        cases hget : pd.discordPollAnswers.get?
            (listIndexOf emoji (pd.optionEmojis.getD [])) with
        | none => simp [countKey_nil]
        | some optionText =>
          by_cases htr : dmem (pid ++ "_" ++ userName) tr
          · simp only [htr, if_true]
            simp [countKey_nil, htr]
          · simp only [htr, if_false, Bool.false_eq_true]
            cases postOk with
            | true =>
              simp only [if_true]
              refine ⟨?_, ?_, ?_, ?_⟩
              · rw [countKey_cons, countKey_nil]
                split <;> omega
              · intro hk
                rw [countKey_cons, countKey_nil]
                rw [if_neg ?_]
                intro hc
                subst hc
                exact htr hk
              · intro _
                by_cases hkk : k = pid ++ "_" ++ userName
                · subst hkk
                  exact dmem_dinsert_self _ _ _
                · rw [countKey_cons, countKey_nil, if_neg (fun hc => hkk hc.symm)] at *
                  omega
              · intro hk
                exact dmem_dinsert_mono _ _ _ _ hk
            | false =>
              simp only [Bool.false_eq_true, if_false]
              have iht := ih (dinsert (pid ++ "_" ++ userName)
                (⟨optionText, now⟩ : VoteRecord) tr)
              by_cases hkk : k = pid ++ "_" ++ userName
              · have hmem : dmem k (dinsert (pid ++ "_" ++ userName)
                    (⟨optionText, now⟩ : VoteRecord) tr) = true := by
                  rw [hkk]
                  exact dmem_dinsert_self _ _ _
                refine ⟨?_, ?_, ?_, ?_⟩
                · rw [countKey_cons, if_pos hkk.symm, iht.2.1 hmem]
                · intro hk
                  rw [hkk] at hk
                  exact absurd hk htr
                · intro _
                  exact iht.2.2.2 hmem
                · intro hk
                  rw [hkk] at hk
                  exact absurd hk htr
              · have hne : ¬ ((pid ++ "_" ++ userName, ballotEmoji ++ " "
                    ++ userName ++ " voted for: " ++ optionText).1 = k) :=
                  fun hc => hkk hc.symm
                refine ⟨?_, ?_, ?_, ?_⟩
                · rw [countKey_cons, if_neg hne]
                  simpa using iht.1
                · intro hk
                  rw [countKey_cons, if_neg hne]
                  have hmono : dmem k (dinsert (pid ++ "_" ++ userName)
                      (⟨optionText, now⟩ : VoteRecord) tr) = true :=
                    dmem_dinsert_mono _ _ _ _ hk
                  simpa using iht.2.1 hmono
                · intro h1
                  rw [countKey_cons, if_neg hne] at h1
                  exact iht.2.2.1 (by simpa using h1)
                · intro hk
                  exact iht.2.2.2 (dmem_dinsert_mono _ _ _ _ hk)
      · rw [if_neg hin]
        exact ih tr
    · rw [if_neg hmatch]
      exact ih tr

lemma handle_poll_vote_key_spec (st : BridgeState) (targetId : Nat)
    (emoji userName : String) (now : Nat) (postOk : Bool) (k : String) :
    countKey k (handle_poll_vote_to_groupme st targetId emoji userName now
      postOk).2.2 ≤ 1 ∧
    (dmem k st.poll_vote_tracking = true →
      countKey k (handle_poll_vote_to_groupme st targetId emoji userName now
        postOk).2.2 = 0) ∧
    (1 ≤ countKey k (handle_poll_vote_to_groupme st targetId emoji userName now
        postOk).2.2 →
      dmem k (handle_poll_vote_to_groupme st targetId emoji userName now
        postOk).2.1.poll_vote_tracking = true) ∧
    (dmem k st.poll_vote_tracking = true →
      dmem k (handle_poll_vote_to_groupme st targetId emoji userName now
        postOk).2.1.poll_vote_tracking = true) :=
  hpvLoop_key_spec targetId emoji userName now postOk k st.active_polls
    st.poll_vote_tracking

/-- Across `n` redeliveries of the identical event, at most one notification
per vote key, and once one was posted the key stays tracked. -/
lemma hpvIterate_key_spec (targetId : Nat) (emoji userName : String)
    (now : Nat) (postOk : Bool) (k : String) :
    ∀ (n : Nat) (st : BridgeState),
      countKey k (hpvIterate targetId emoji userName now postOk st n).2 ≤ 1 ∧
      (1 ≤ countKey k (hpvIterate targetId emoji userName now postOk st n).2 →
        dmem k (hpvIterate targetId emoji userName now postOk st n).1.poll_vote_tracking = true) ∧
      (dmem k st.poll_vote_tracking = true →
        countKey k (hpvIterate targetId emoji userName now postOk st n).2 = 0 ∧
        dmem k (hpvIterate targetId emoji userName now postOk st n).1.poll_vote_tracking = true) := by
  intro n
  induction n with
  | zero =>
    intro st
    simp [hpvIterate, countKey_nil]
  | succ m ih =>
    intro st
    have h1 := handle_poll_vote_key_spec st targetId emoji userName now postOk k
    set r := handle_poll_vote_to_groupme st targetId emoji userName now postOk
      with hr
    have ihm := ih r.2.1
    have hiter : hpvIterate targetId emoji userName now postOk st (m + 1)
        = ((hpvIterate targetId emoji userName now postOk r.2.1 m).1,
           r.2.2 ++ (hpvIterate targetId emoji userName now postOk r.2.1 m).2) := by
      rw [hpvIterate]
    rw [hiter]
    simp only [countKey_append]
    by_cases hst : dmem k st.poll_vote_tracking
    · have hc0 : countKey k r.2.2 = 0 := h1.2.1 hst
      have htr : dmem k r.2.1.poll_vote_tracking = true := h1.2.2.2 hst
      obtain ⟨_, _, hrest⟩ := ihm
      refine ⟨?_, ?_, ?_⟩
      · rw [hc0, (hrest htr).1]
        omega
      · intro _
        exact (hrest htr).2
      · intro _
        exact ⟨by rw [hc0, (hrest htr).1], (hrest htr).2⟩
    · by_cases hc : 1 ≤ countKey k r.2.2
      · have hc1 : countKey k r.2.2 = 1 := le_antisymm h1.1 hc
        have htr : dmem k r.2.1.poll_vote_tracking = true := h1.2.2.1 hc
        obtain ⟨_, _, hrest⟩ := ihm
        refine ⟨?_, ?_, ?_⟩
        · rw [hc1, (hrest htr).1]
        · intro _
          exact (hrest htr).2
        · intro hst'
          exact absurd hst' hst
      · have hc0 : countKey k r.2.2 = 0 := by omega
        refine ⟨?_, ?_, ?_⟩
        · rw [hc0]
          simpa using ihm.1
        · intro hge
          rw [hc0] at hge
          exact ihm.2.1 (by simpa using hge)
        · intro hst'
          exact absurd hst' hst

/-- With every tracked poll lacking the `'option_emojis'` key, the
`handle_poll_vote_to_groupme` loop matches nothing: it reports unhandled,
leaves the vote tracking untouched and posts nothing. -/
lemma hpvLoop_no_emojis (targetId : Nat) (emoji userName : String)
    (now : Nat) (postOk : Bool) :
    ∀ (polls : List (String × PollEntry)) (tr : List (String × VoteRecord)),
      (∀ p ∈ polls, p.2.optionEmojis = none) →
      hpvLoop targetId emoji userName now postOk polls tr = (false, tr, []) := by
  intro polls
  induction polls with
  | nil => intro tr _; rfl
  | cons hd rest ih =>
    intro tr hnone
    obtain ⟨pid, pd⟩ := hd
    have hpd : pd.optionEmojis = none := hnone (pid, pd) (List.mem_cons_self _ _)
    have hrest : ∀ p ∈ rest, p.2.optionEmojis = none :=
      fun p hp => hnone p (List.mem_cons_of_mem _ hp)
    rw [hpvLoop]
    by_cases hmatch : pd.source = "discord" ∧ pd.discordMessageId = targetId
    · rw [if_pos hmatch]
      have hempty : emoji ∉ pd.optionEmojis.getD [] := by
        rw [hpd]
        simp
      rw [if_neg hempty]
      exact ih tr hrest
    · rw [if_neg hmatch]
      exact ih tr hrest

/-! ## Index lemmas for the poll-option constructions -/

lemma get?_map_take {β : Type} (f : String → β) :
    ∀ (n : Nat) (l : List String) (i : Nat), i < n →
      ((l.take n).map f).get? i = (l.get? i).map f := by
  intro n
  induction n with
  | zero => intro l i h; omega
  | succ m ih =>
    intro l i h
    cases l with
    | nil => simp
    | cons a t =>
      cases i with
      | zero => simp
      | succ j =>
        simp only [List.take_succ_cons, List.map_cons, List.get?_cons_succ]
        exact ih t j (by omega)

lemma buildOptsFrom_get? :
    ∀ (l : List String) (j i : Nat),
      (buildOptsFrom j l).get? i =
        (l.get? i).map (fun o => ⟨pySliceStr o 55, numEmoji (j + i + 1)⟩) := by
  intro l
  induction l with
  | nil => intro j i; simp [buildOptsFrom]
  | cons a t ih =>
    intro j i
    cases i with
    | zero => simp [buildOptsFrom]
    | succ m =>
      simp only [buildOptsFrom, List.get?_cons_succ]
      rw [ih (j + 1) m]
      simp only [show j + 1 + m + 1 = j + (m + 1) + 1 from by omega]

lemma buildOptsFrom_length : ∀ (l : List String) (j : Nat),
    (buildOptsFrom j l).length = l.length := by
  intro l
  induction l with
  | nil => intro j; rfl
  | cons a t ih => intro j; simp [buildOptsFrom, ih]

lemma pySliceStr_length (s : String) (n : Nat) :
    (pySliceStr s n).length ≤ n := by
  have : (pySliceStr s n).length = (s.data.take n).length := rfl
  rw [this, List.length_take]
  omega

/-! ## Claim C1 -/

/-- A state tracking one GroupMe-origin poll, as registered by
`create_groupme_poll_from_discord` or `create_discord_poll_from_groupme_native`
(`groupme_poll_mapping` maps the native GroupMe poll id). -/
def c1State : BridgeState :=
  { initialState with groupme_poll_mapping := [("gm1", "groupme_gm1")] }

/-- C1 (counterexample): the claim fails on the GroupMe webhook direction.
`handle_groupme_poll_vote` consults no vote-tracking state and mutates
nothing, so delivering the identical `poll.vote` event for the tracked poll
`gm1` and voter `alice` twice posts two vote notifications to Discord for
the same (poll, voter) pair — not at most one. -/
theorem C1_counterexample :
    handle_groupme_poll_vote c1State "gm1" "alice" "Dog" true
      = [ballotEmoji ++ " **alice** voted for: **Dog**"] ∧
    (handle_groupme_poll_vote c1State "gm1" "alice" "Dog" true ++
      handle_groupme_poll_vote c1State "gm1" "alice" "Dog" true).length = 2 := by
  constructor
  · rfl
  · rfl

/-- C1 (amended): on the Discord-to-GroupMe direction
(`handle_poll_vote_to_groupme`), at most one vote notification is posted per
(poll, voter) vote key, no matter how many times the identical reaction
event is redelivered: a repeated event whose vote key is already present in
`poll_vote_tracking` is treated as handled without a second notification. -/
theorem C1_discord_direction_at_most_once (st : BridgeState) (targetId : Nat)
    (emoji userName : String) (now : Nat) (postOk : Bool) (n : Nat)
    (k : String) :
    countKey k (hpvIterate targetId emoji userName now postOk st n).2 ≤ 1 :=
  (hpvIterate_key_spec targetId emoji userName now postOk k n st).1

/-! ## Claim C2 -/

/-- Helper for C2: under the all-entries-lack-`'option_emojis'` invariant,
the Discord-to-GroupMe vote path reports unhandled, changes nothing and
posts nothing. -/
lemma handle_poll_vote_no_emojis (st : BridgeState) (targetId : Nat)
    (emoji userName : String) (now : Nat) (postOk : Bool)
    (h : no_option_emojis st) :
    handle_poll_vote_to_groupme st targetId emoji userName now postOk
      = (false, st, []) := by
  have hl := hpvLoop_no_emojis targetId emoji userName now postOk
    st.active_polls st.poll_vote_tracking h
  simp [handle_poll_vote_to_groupme, hl]

/-- C2: every `active_polls` record built by the two poll constructors lacks
the `'option_emojis'` key, and under that invariant
`handle_poll_vote_to_groupme` returns `False`, leaves `poll_vote_tracking`
unchanged and posts nothing, so `send_reaction_to_groupme` always falls
through to the generic reaction-forwarding message. -/
theorem C2_discord_vote_path_dead :
    (∀ st q opts gm author now dmid, no_option_emojis st →
      no_option_emojis
        (create_discord_poll_from_groupme_native st q opts gm author now dmid).1) ∧
    (∀ st tok q opts author mid now api, no_option_emojis st →
      no_option_emojis
        (create_groupme_poll_from_discord st tok q opts author mid now api).2) ∧
    (∀ st targetId emoji userName now postOk, no_option_emojis st →
      handle_poll_vote_to_groupme st targetId emoji userName now postOk
        = (false, st, [])) ∧
    (∀ st targetId emoji userName now postOk origMsg, no_option_emojis st →
      send_reaction_to_groupme st true targetId emoji userName now postOk origMsg
        = (postOk, st, [reactionContextText origMsg emoji userName])) := by
  refine ⟨?_, ?_, ?_, ?_⟩
  · intro st q opts gm author now dmid h
    intro p hp
    exact mem_dinsert_pres (fun e : PollEntry => e.optionEmojis = none) _ _
      st.active_polls (fun q hq => h q hq) rfl p hp
  · intro st tok q opts author mid now api h
    unfold create_groupme_poll_from_discord
    by_cases h1 : tok = false
    · rw [if_pos h1]; exact h
    · rw [if_neg h1]
      by_cases h2 : opts.length < 2
      · rw [if_pos h2]; exact h
      · rw [if_neg h2]
        cases api with
        | none => exact h
        | some r =>
          dsimp only
          by_cases h3 : r.status = 201
          · rw [if_pos h3]
            intro p hp
            exact mem_dinsert_pres (fun e : PollEntry => e.optionEmojis = none) _ _
              st.active_polls (fun q hq => h q hq) rfl p hp
          · rw [if_neg h3]; exact h
  · intro st targetId emoji userName now postOk h
    exact handle_poll_vote_no_emojis st targetId emoji userName now postOk h
  · intro st targetId emoji userName now postOk origMsg h
    have hv := handle_poll_vote_no_emojis st targetId emoji userName now postOk h
    simp [send_reaction_to_groupme, hv]

/-- C2 (witness): the conjuncts of `C2_discord_vote_path_dead` at concrete
inputs, all hypotheses discharged. -/
theorem C2_witness :
    handle_poll_vote_to_groupme initialState 5 "x" "alice" 100 true
      = (false, initialState, []) ∧
    send_reaction_to_groupme initialState true 5 "x" "alice" 100 true none
      = (true, initialState, [reactionContextText none "x" "alice"]) :=
  ⟨C2_discord_vote_path_dead.2.2.1 initialState 5 "x" "alice" 100 true
      (by intro p hp; simp [initialState] at hp),
   C2_discord_vote_path_dead.2.2.2 initialState 5 "x" "alice" 100 true none
      (by intro p hp; simp [initialState] at hp)⟩

/-! ## Claim C3 -/

/-- C3: parsing the spec's text-poll input
`📊 Poll: Best pet? 1️⃣ Dog 2️⃣ Cat 3️⃣ Fish` with
`parse_groupme_poll_text` yields question `Best pet` and options
`["Dog", "Cat", "Fish"]` in that order, and the numbered-emoji pattern (the
first of the cascading patterns) is the one that yields those at least 2
options. -/
theorem C3_text_poll_parse_scenario :
    parse_groupme_poll_text specPollScenarioInput
      = some ⟨"Best pet", ["Dog", "Cat", "Fish"]⟩ ∧
    extractOptions numberedEmojiMarkers specPollScenarioInput
      = ["Dog", "Cat", "Fish"] := by
  constructor
  · rfl
  · rfl

/-! ## Claim C4 -/

/-- C4: with fewer than 2 extracted options, poll translation rejects in
both directions and leaves every mapping untouched:
`create_groupme_poll_from_discord` returns `False` with the state unchanged,
and `handle_groupme_poll_created` returns the state unchanged. -/
theorem C4_reject_fewer_than_two_options :
    (∀ st tok q opts author mid now api, opts.length < 2 →
      create_groupme_poll_from_discord st tok q opts author mid now api
        = (false, st)) ∧
    (∀ st pid subj author opts chan now dmid, opts.length < 2 →
      handle_groupme_poll_created st (some pid) subj author (some opts) chan
        now dmid = st) := by
  constructor
  · intro st tok q opts author mid now api hlen
    unfold create_groupme_poll_from_discord
    by_cases h1 : tok = false
    · rw [if_pos h1]
    · rw [if_neg h1, if_pos hlen]
  · intro st pid subj author opts chan now dmid hlen
    show (if pid = "" then st
      else
        if opts.length < 2 then st
        else
          if chan = true then
            (create_discord_poll_from_groupme_native st subj opts pid author
              now dmid).1
          else st) = st
    by_cases h1 : pid = ""
    · rw [if_pos h1]
    · rw [if_neg h1, if_pos hlen]

/-- C4 (witness): both rejection paths at a concrete single-option poll. -/
theorem C4_witness :
    create_groupme_poll_from_discord initialState true "Q" ["A"] "bob" 1 2
      (some ⟨201, "g"⟩) = (false, initialState) ∧
    handle_groupme_poll_created initialState (some "p") "S" "bob" (some ["A"])
      true 3 4 = initialState :=
  ⟨C4_reject_fewer_than_two_options.1 initialState true "Q" ["A"] "bob" 1 2
     (some ⟨201, "g"⟩) (by decide),
   C4_reject_fewer_than_two_options.2 initialState "p" "S" "bob" ["A"] true 3 4
     (by decide)⟩

/-! ## Claim C5 -/

/-- C5: when the GroupMe poll-creation call fails — a network exception
(`api = none`) or any status other than 201 — `create_groupme_poll_from_discord`
returns `False` and performs no partial registration: the state is returned
exactly as it was. -/
theorem C5_api_failure_no_partial_registration :
    (∀ st tok q opts author mid now,
      create_groupme_poll_from_discord st tok q opts author mid now none
        = (false, st)) ∧
    (∀ st tok q opts author mid now r, r.status ≠ 201 →
      create_groupme_poll_from_discord st tok q opts author mid now (some r)
        = (false, st)) := by
  constructor
  · intro st tok q opts author mid now
    unfold create_groupme_poll_from_discord
    by_cases h1 : tok = false
    · rw [if_pos h1]
    · rw [if_neg h1]
      by_cases h2 : opts.length < 2
      · rw [if_pos h2]
      · rw [if_neg h2]
  · intro st tok q opts author mid now r hst
    unfold create_groupme_poll_from_discord
    by_cases h1 : tok = false
    · rw [if_pos h1]
    · rw [if_neg h1]
      by_cases h2 : opts.length < 2
      · rw [if_pos h2]
      · rw [if_neg h2]
        dsimp only
        rw [if_neg hst]

/-- C5 (witness): a concrete 2-option poll with token present: the exception
path and a 500 response both return failure with the state unchanged. -/
theorem C5_witness :
    create_groupme_poll_from_discord initialState true "Q" ["A", "B"] "bob" 1 2
      none = (false, initialState) ∧
    create_groupme_poll_from_discord initialState true "Q" ["A", "B"] "bob" 1 2
      (some ⟨500, ""⟩) = (false, initialState) :=
  ⟨C5_api_failure_no_partial_registration.1 initialState true "Q" ["A", "B"]
     "bob" 1 2,
   C5_api_failure_no_partial_registration.2 initialState true "Q" ["A", "B"]
     "bob" 1 2 ⟨500, ""⟩ (by decide)⟩

/-! ## Claim C6 -/

/-- C6 (the code at the failing input): a GroupMe webhook payload with
`sender_type = "bot"` whose text looks like a poll is NOT dropped by
`handle_groupme_webhook_event`: the regular-message forward is suppressed,
but the text-poll detection path still runs, and `handle_groupme_text_poll`
then creates a Discord poll and registers it in `active_polls` — an
outbound relay and a state mutation for a bot-authored event. -/
theorem C6_bot_poll_text_not_dropped :
    handle_groupme_webhook_event "bot" "GroupMe Bridge" specPollScenarioInput ""
      = [WebhookAction.textPoll] ∧
    (handle_groupme_text_poll initialState specPollScenarioInput
      "GroupMe Bridge" true 1000 42).active_polls ≠ [] := by
  constructor
  · decide
  · decide

/-! ## Claim C7 -/

/-- C7: `detect_reply_context` on `@alice great point` returns quoted author
`alice` and clean message `great point`; on `Just chatting` it returns no
quoted author and the unchanged text; in general the patterns are tried in
their fixed order and the first matching pattern's two capture groups win
(every pattern has exactly two groups). -/
theorem C7_reply_detection :
    detect_reply_context "@alice great point" = (some "alice", "great point") ∧
    detect_reply_context "Just chatting" = (none, "Just chatting") ∧
    (∀ s a b, matchReplyTo s = some (a, b) →
      detect_reply_context s = (some a, b)) ∧
    (∀ s a b, matchReplyTo s = none → matchAtUser s = some (a, b) →
      detect_reply_context s = (some a, b)) ∧
    (∀ s, matchReplyTo s = none → matchAtUser s = none →
      matchBlockquote s = none → matchQuoted s = none →
      detect_reply_context s = (none, s)) := by
  refine ⟨by decide, by decide, ?_, ?_, ?_⟩
  · intro s a b h
    simp [detect_reply_context, h]
  · intro s a b h1 h2
    simp [detect_reply_context, h1, h2]
  · intro s h1 h2 h3 h4
    simp [detect_reply_context, h1, h2, h3, h4]

/-- C7 (witness): the general first-pattern-wins conjuncts at concrete
inputs, hypotheses discharged by evaluation. -/
theorem C7_witness :
    detect_reply_context "Reply to @bob: hi" = (some "bob", "hi") ∧
    detect_reply_context "@carol  see this" = (some "carol", "see this") :=
  ⟨C7_reply_detection.2.2.1 "Reply to @bob: hi" "bob" "hi" (by decide),
   C7_reply_detection.2.2.2.1 "@carol  see this" "carol" "see this"
     (by decide) (by decide)⟩

/-! ## Claim C8 -/

/-- C8: each translated poll respects the platform caps.  GroupMe direction
(`buildGroupMePollPayload`, src/main.py:384-399): at most 10 options, subject
and every option title cut to 160 code points, the kept option at index `i`
being the slice of the input option at index `i` (extras dropped, order
preserved).  Discord direction (`buildDiscordPollOptions`,
src/main.py:227-232): at most 10 options, each text cut to 55 code points,
and the option at index `i` paired with the numeric emoji encoding of
`i + 1`. -/
theorem C8_platform_caps (q : String) (opts : List String) (now i : Nat) :
    (buildGroupMePollPayload q opts now).options.length ≤ 10 ∧
    (buildGroupMePollPayload q opts now).subject.length ≤ 160 ∧
    (∀ o ∈ (buildGroupMePollPayload q opts now).options,
      o.title.length ≤ 160) ∧
    (i < 10 → (buildGroupMePollPayload q opts now).options.get? i
      = (opts.get? i).map (fun o => ⟨pySliceStr o 160⟩)) ∧
    (buildDiscordPollOptions opts).length ≤ 10 ∧
    (∀ p ∈ buildDiscordPollOptions opts, p.text.length ≤ 55) ∧
    (i < 10 → (buildDiscordPollOptions opts).get? i
      = (opts.get? i).map (fun o => ⟨pySliceStr o 55, numEmoji (i + 1)⟩)) := by
  refine ⟨?_, ?_, ?_, ?_, ?_, ?_, ?_⟩
  · show ((opts.take 10).map _).length ≤ 10
    rw [List.length_map, List.length_take]
    omega
  · exact pySliceStr_length q 160
  · intro o ho
    simp only [buildGroupMePollPayload, List.mem_map] at ho
    obtain ⟨x, _, hx⟩ := ho
    rw [← hx]
    exact pySliceStr_length x 160
  · intro hi
    show ((opts.take 10).map
        (fun o => ({ title := pySliceStr o 160 } : GroupMePollOption))).get? i
      = (opts.get? i).map (fun o => ({ title := pySliceStr o 160 } : GroupMePollOption))
    exact get?_map_take _ 10 opts i hi
  · show (buildOptsFrom 0 (opts.take 10)).length ≤ 10
    rw [buildOptsFrom_length, List.length_take]
    omega
  · intro p hp
    rw [buildDiscordPollOptions, List.mem_iff_get?] at hp
    obtain ⟨n, hn⟩ := hp
    rw [buildOptsFrom_get?] at hn
    cases ho : (opts.take 10).get? n with
    | none => rw [ho] at hn; simp at hn
    | some o =>
      rw [ho] at hn
      simp only [Option.map_some'] at hn
      have : p.text = pySliceStr o 55 := by
        rw [← Option.some.inj hn]
      rw [this]
      exact pySliceStr_length o 55
  · intro hi
    rw [buildDiscordPollOptions, buildOptsFrom_get?]
    cases ho : (opts.take 10).get? i with
    | none =>
      have hnone : opts.get? i = none := by
        by_contra hne
        cases hv : opts.get? i with
        | none => exact hne hv
        | some v =>
          have := List.get?_take hi (l := opts) (n := 10) (m := i)
          rw [ho, hv] at this
          exact Option.noConfusion this
      rw [hnone]
      rfl
    | some o =>
      have htake : (opts.take 10).get? i = opts.get? i :=
        List.get?_take hi
      rw [htake] at ho
      rw [ho]
      simp only [Option.map_some']
      rw [Nat.zero_add]

/-- C8 (witness): the cap/pairing facts at a concrete 2-option poll,
with the index bound discharged. -/
theorem C8_witness :
    (buildGroupMePollPayload "Q" ["a", "b"] 0).options.get? 0
      = some ⟨pySliceStr "a" 160⟩ ∧
    (buildDiscordPollOptions ["a", "b"]).get? 0
      = some ⟨pySliceStr "a" 55, numEmoji 1⟩ := by
  have h := C8_platform_caps "Q" ["a", "b"] 0 0
  constructor
  · rw [h.2.2.2.1 (by decide)]
    rfl
  · rw [h.2.2.2.2.2.2 (by decide)]
    rfl

/-! ## Claim C9 -/

/-- Helper for C9: the state written by one successful forward of a GroupMe
message carrying id `gid`. -/
lemma forward_groupme_state (st : BridgeState) (sender text gid : String)
    (d : Nat) (h1 : text ≠ "") (h2 : sender ≠ "Bot") (h3 : gid ≠ "") :
    (forward_groupme_to_discord st sender text (some gid) true d).1
      = { st with
            groupme_to_discord := dinsert gid d st.groupme_to_discord
            message_mapping := dinsert d gid st.message_mapping } := by
  simp [forward_groupme_to_discord, h1, h2, h3]

/-- C9: relaying two chat-message events bearing the same native GroupMe id
never corrupts the message-link lookup: the lookup of the re-linked id
returns exactly the id of the second relay (last-write-wins, a single
well-defined value), every other id's lookup is untouched, and key
uniqueness of the link table is preserved. -/
theorem C9_relink_last_write_wins (st : BridgeState) (sender text gid : String)
    (d1 d2 : Nat) (h1 : text ≠ "") (h2 : sender ≠ "Bot") (h3 : gid ≠ "") :
    dlookup gid ((forward_groupme_to_discord
        (forward_groupme_to_discord st sender text (some gid) true d1).1
        sender text (some gid) true d2).1).groupme_to_discord = some d2 ∧
    (∀ g, g ≠ gid →
      dlookup g ((forward_groupme_to_discord
        (forward_groupme_to_discord st sender text (some gid) true d1).1
        sender text (some gid) true d2).1).groupme_to_discord
        = dlookup g st.groupme_to_discord) ∧
    (keysNodup st.groupme_to_discord →
      keysNodup ((forward_groupme_to_discord
        (forward_groupme_to_discord st sender text (some gid) true d1).1
        sender text (some gid) true d2).1).groupme_to_discord) := by
  rw [forward_groupme_state st sender text gid d1 h1 h2 h3]
  rw [forward_groupme_state _ sender text gid d2 h1 h2 h3]
  refine ⟨?_, ?_, ?_⟩
  · exact dlookup_dinsert_self gid d2 _
  · intro g hg
    rw [dlookup_dinsert_ne gid g d2 _ hg, dlookup_dinsert_ne gid g d1 _ hg]
  · intro hnd
    exact keysNodup_dinsert gid d2 _ (keysNodup_dinsert gid d1 _ hnd)

/-- C9 (witness): a concrete double relay of GroupMe message `g1`, first
linked to Discord id 1 and then to Discord id 2: lookup returns 2. -/
theorem C9_witness :
    dlookup "g1" ((forward_groupme_to_discord
        (forward_groupme_to_discord initialState "alice" "hi" (some "g1")
          true 1).1
        "alice" "hi" (some "g1") true 2).1).groupme_to_discord = some 2 :=
  (C9_relink_last_write_wins initialState "alice" "hi" "g1" 1 2 (by decide)
    (by decide) (by decide)).1

/-! ## Claim C10 -/

/-- A tracked poll created at wall-clock time 0. -/
def c10Entry : PollEntry :=
  { source := "discord", discordMessageId := 7, groupmePollId := "g",
    author := "bob", createdAt := 0, options := ["A", "B"],
    optionEmojis := none, discordPollAnswers := ["A", "B"] }

/-- A state tracking that poll together with one of its vote records (vote
cast at time 3600). -/
def c10State : BridgeState :=
  { initialState with
      active_polls := [("p", c10Entry)]
      poll_vote_tracking := [("p_alice", ⟨"A", 3600⟩)] }

/-- C10 (counterexample): the claim fails at the 24-hour boundary and on
vote co-eviction.  At wall-clock time exactly `T + 24h` (86400, poll created
at 0) the cleanup removes nothing — the source requires age strictly greater
than 86400 — and at 86401 the poll is removed while its vote record (cast at
3600, own age 82801) is retained, so VoteRecords are not removed together
with their parent poll. -/
theorem C10_counterexample :
    cleanup_old_polls_step c10State 86400 = c10State ∧
    (cleanup_old_polls_step c10State 86401).active_polls = [] ∧
    (cleanup_old_polls_step c10State 86401).poll_vote_tracking
      = [("p_alice", ⟨"A", 3600⟩)] := by
  refine ⟨?_, ?_, ?_⟩ <;> rfl

/-- C10 (amended): a cleanup run at time `now` retains a tracked poll
exactly when its age is at most 86400 seconds (so removal happens once
wall-clock time is strictly greater than `T + 24h`), and — independently —
retains a vote-tracking entry exactly when that entry's own timestamp is at
most 86400 seconds old; vote records are not evicted together with their
parent poll but on their own clock. -/
theorem C10_cleanup_characterization (st : BridgeState) (now : Nat) :
    (∀ k e, ((k, e) ∈ (cleanup_old_polls_step st now).active_polls ↔
      ((k, e) ∈ st.active_polls ∧ now - e.createdAt ≤ 86400))) ∧
    (∀ k v, ((k, v) ∈ (cleanup_old_polls_step st now).poll_vote_tracking ↔
      ((k, v) ∈ st.poll_vote_tracking ∧ now - v.timestamp ≤ 86400))) := by
  constructor
  · intro k e
    simp [cleanup_old_polls_step, List.mem_filter, Nat.not_lt]
  · intro k v
    simp [cleanup_old_polls_step, List.mem_filter, Nat.not_lt]

/-- C10 (witness): the characterization applied at the concrete state and
time 90000: the poll of `c10State` (age 90000 > 86400) is gone. -/
theorem C10_witness :
    ("p", c10Entry) ∈ (cleanup_old_polls_step c10State 90000).active_polls ↔
      (("p", c10Entry) ∈ c10State.active_polls ∧
        90000 - c10Entry.createdAt ≤ 86400) :=
  (C10_cleanup_characterization c10State 90000).1 "p" c10Entry
